import Mathlib

/-!
Verification model of the twowaygoogle middleware's Identity Resolution &
Reconciliation Engine, translated shallowly from the JavaScript sources:

* `src/googleMiddleware.js`  — the `/create-event` route, `createNewEvent`,
  `extractERCode`, `convertAlchemyDate` (3-format variant), and the
  `/tracked-events/:erCode` delete route;
* `src/unnamed/part_000`     — `extractEventIdentifier`, the identifier
  resolution in its `/create-event` route, `convertAlchemyDate` (6-format
  variant), `addRecentEvent` / `getRecentEvent`;
* `src/unnamed/part_005`     — `findExistingEvent` (strategy 1: cached-id
  verification against the remote).

Remote (Google Calendar / OAuth) interactions are modelled by passing the
responses the code would receive as explicit parameters, and every calendar
mutation the handler issues is recorded in an explicit call trace.
-/

namespace TwoWayGoogle

/-! ## JavaScript value-model helpers

Inbound JSON fields are modelled as `Option String` (`none` = absent /
undefined).  JavaScript condition positions coerce via truthiness: an absent
field and the empty string are both falsy. -/

/-- JS truthiness of a possibly-absent string field: `undefined` and `""`
are falsy, every other string is truthy. -/
def jsTruthy : Option String → Bool
  | none => false
  | some s => s ≠ ""

/-- JS `a || b` on a possibly-absent string with a string default, as in
`req.body.summary || ""`. -/
def jsOr (v : Option String) (d : String) : String :=
  match v with
  | none => d
  | some s => if s = "" then d else s

/-- JS `a || b` keeping absence, as in `req.body.recordId || req.body.id`. -/
def jsOrOpt (v w : Option String) : Option String :=
  if jsTruthy v then v else w

/-! ## The mapping store

`eventMappings` (googleMiddleware.js) / `eventTrackingData` (part_000) is a
plain JSON object `logicalId → eventId`.  We model it as an association
list with object semantics: assignment replaces in place or appends,
`delete` removes the key. -/

/-- The durable mapping store `logicalId → eventId`. -/
abbrev Mappings := List (String × String)

/-- `m[k]` — property lookup. -/
def mapLookup (m : Mappings) (k : String) : Option String :=
  match m with
  | [] => none
  | (k', v) :: rest => if k = k' then some v else mapLookup rest k

/-- `m[k] = v` — property assignment (replace in place, else append). -/
def mapSet (m : Mappings) (k v : String) : Mappings :=
  match m with
  | [] => [(k, v)]
  | (k', v') :: rest => if k = k' then (k, v) :: rest else (k', v') :: mapSet rest k v

/-- `delete m[k]` — property removal.  A JSON object holds each key at
most once, so removal is modelled as dropping every pair with that key. -/
def mapErase (m : Mappings) (k : String) : Mappings :=
  m.filter (fun kv => !(kv.1 == k))

/-! ## Identifier extraction -/

/-- One step of `String.data`-level scanning: longest prefix of uppercase
ASCII letters. -/
def takeUpper : List Char → List Char × List Char
  | [] => ([], [])
  | c :: cs =>
    if c.isUpper then
      let (u, r) := takeUpper cs
      (c :: u, r)
    else ([], c :: cs)

/-- Longest prefix of ASCII digits. -/
def takeDigits : List Char → List Char × List Char
  | [] => ([], [])
  | c :: cs =>
    if c.isDigit then
      let (d, r) := takeDigits cs
      (c :: d, r)
    else ([], c :: cs)

/-- Match of the regex `[A-Z]+\d+` anchored at the head of the character
list: a nonempty run of uppercase letters followed by a nonempty run of
digits (greedy, as the regex backtracking cannot shorten the letter run
into a digit). -/
def upperDigitsAt (cs : List Char) : Option (List Char) :=
  let (u, r1) := takeUpper cs
  if u.isEmpty then none
  else
    let (d, _) := takeDigits r1
    if d.isEmpty then none else some (u ++ d)

/-- Leftmost match of `[A-Z]+\d+` anywhere in the list (JS `String.match`
without `^`). -/
def upperDigitsSearch : List Char → Option (List Char)
  | [] => none
  | c :: cs =>
    match upperDigitsAt (c :: cs) with
    | some m => some m
    | none => upperDigitsSearch cs

/-- `extractERCode(summary)` from googleMiddleware.js: the regex
`/^(ER\d+)/` — literal `ER` then one or more digits, anchored at the start
of the summary. -/
def extractERCode (summary : Option String) : Option String :=
  match summary with
  | none => none
  | some s =>
    if s = "" then none
    else
      match s.data with
      | 'E' :: 'R' :: rest =>
        let (d, _) := takeDigits rest
        if d.isEmpty then none else some (String.mk ('E' :: 'R' :: d))
      | _ => none

/-- Anchored match of `/RecordID:\s*(\d+)/i` at the head of the list:
case-insensitive literal `RecordID:`, optional whitespace, then digits. -/
def recordIdMarkerAt (cs : List Char) : Option (List Char) :=
  match cs with
  | r1 :: e :: c :: o :: r2 :: d :: i :: d2 :: ':' :: rest =>
    if r1.toLower = 'r' ∧ e.toLower = 'e' ∧ c.toLower = 'c' ∧ o.toLower = 'o' ∧
       r2.toLower = 'r' ∧ d.toLower = 'd' ∧ i.toLower = 'i' ∧ d2.toLower = 'd' then
      let ws := rest.dropWhile (fun ch => ch.isWhitespace)
      let (ds, _) := takeDigits ws
      if ds.isEmpty then none else some ds
    else none
  | _ => none

/-- Leftmost match of `/RecordID:\s*(\d+)/i` anywhere in the list. -/
def recordIdMarkerSearch : List Char → Option (List Char)
  | [] => none
  | c :: cs =>
    match recordIdMarkerAt (c :: cs) with
    | some m => some m
    | none => recordIdMarkerSearch cs

/-- `extractEventIdentifier(summary, description)` from part_000:
1. `/^([A-Z]+\d+)/` anchored at the start of the summary;
2. the same pattern anywhere in the description;
3. `/RecordID:\s*(\d+)/i` anywhere in the description, returned as
   `RID_<digits>`;
4. otherwise `null`.
Absent or falsy arguments skip their strategies (`summary ? … : null`). -/
def extractEventIdentifier (summary description : Option String) : Option String :=
  let s1 :=
    match summary with
    | none => none
    | some s => if s = "" then none else upperDigitsAt s.data
  match s1 with
  | some m => some (String.mk m)
  | none =>
    let s2 :=
      match description with
      | none => none
      | some d => if d = "" then none else upperDigitsSearch d.data
    match s2 with
    | some m => some (String.mk m)
    | none =>
      match description with
      | none => none
      | some d =>
        if d = "" then none
        else
          match recordIdMarkerSearch d.data with
          | some ds => some ("RID_" ++ String.mk ds)
          | none => none

/-- The identifier-resolution block of part_000's `/create-event` route
(lines 303–315): first `extractEventIdentifier(summary, description)`, and
only if that found nothing, the explicit field
`req.body.recordId || req.body.id || req.body.record_id`, wrapped as
`RID_<recordId>`.  Returns `none` when neither source yields an id (the
route then synthesizes a time-based placeholder). -/
def resolveEventId (summary description recordId idField recordIdSnake : Option String) :
    Option String :=
  match extractEventIdentifier summary description with
  | some e => some e
  | none =>
    let rid := jsOrOpt (jsOrOpt recordId idField) recordIdSnake
    match rid with
    | some r => if r = "" then none else some ("RID_" ++ r)
    | none => none

/-! ## Date normalization

`convertAlchemyDate(dateString, timeZone)` uses luxon: it tries a fixed list
of `DateTime.fromFormat` patterns in `{ zone: "UTC" }`, falls back to
`DateTime.fromISO`, and re-expresses a successful parse in the target zone
with `setZone(timeZone).toISO()`.

The embedding parses a date string to the instant it denotes, as
milliseconds since the Unix epoch (proleptic Gregorian, all parses
interpreted in UTC as the code requests).  A luxon `DateTime` is a zoned
instant; `setZone` keeps the instant and changes only the offset used for
rendering, so the value returned by `toISO()` is modelled by the pair
(instant, offset in the target zone).  A timezone is modelled as a total
offset-at-instant function (a valid IANA zone; luxon would yield an invalid
DateTime for an unknown zone name, which is outside this model). -/

/-- Gregorian leap year. -/
def isLeapYear (y : Nat) : Bool :=
  (y % 4 == 0 && y % 100 != 0) || y % 400 == 0

/-- Days in a month (1–12). -/
def daysInMonth (y m : Nat) : Nat :=
  if m = 2 then (if isLeapYear y then 29 else 28)
  else if m = 4 ∨ m = 6 ∨ m = 9 ∨ m = 11 then 30
  else 31

/-- Number of leap years in `[0, y)` (year 0 is a leap year). -/
def leapCountBefore (y : Nat) : Nat :=
  (y + 3) / 4 - (y + 99) / 100 + (y + 399) / 400

/-- Days from 0000-01-01 to the start of year `y`. -/
def daysBeforeYear (y : Nat) : Nat :=
  365 * y + leapCountBefore y

/-- Days from the start of the year to the start of month `m` (1–12). -/
def daysBeforeMonth (y m : Nat) : Nat :=
  let base :=
    match m with
    | 1 => 0 | 2 => 31 | 3 => 59 | 4 => 90 | 5 => 120 | 6 => 151
    | 7 => 181 | 8 => 212 | 9 => 243 | 10 => 273 | 11 => 304 | _ => 334
  if 3 ≤ m ∧ isLeapYear y then base + 1 else base

/-- Day number of the civil date `y-m-d` counted from 0000-01-01. -/
def rataDie (y m d : Nat) : Nat :=
  daysBeforeYear y + daysBeforeMonth y m + (d - 1)

/-- Milliseconds since the Unix epoch of a UTC civil datetime. -/
def civilToMillis (y m d hh mi ss ms : Nat) : Int :=
  ((rataDie y m d : Int) - (rataDie 1970 1 1 : Int)) * 86400000
    + (hh : Int) * 3600000 + (mi : Int) * 60000 + (ss : Int) * 1000 + (ms : Int)

/-- Field-range and calendar validity, as luxon checks before producing a
valid `DateTime`. -/
def validCivil (y m d hh mi ss ms : Nat) : Bool :=
  1 ≤ m && m ≤ 12 && 1 ≤ d && d ≤ daysInMonth y m &&
  hh < 24 && mi < 60 && ss < 60 && ms < 1000

/-! ### Character-level strict parsers -/

/-- Consume one expected character. -/
def expectChar (c : Char) : List Char → Option (List Char)
  | [] => none
  | x :: xs => if x = c then some xs else none

/-- Numeric value of an ASCII digit. -/
def digitVal (c : Char) : Nat := c.toNat - 48

/-- Exactly `n` ASCII digits, most significant first. -/
def parseDigitsNAux : Nat → Nat → List Char → Option (Nat × List Char)
  | 0, acc, cs => some (acc, cs)
  | _ + 1, _, [] => none
  | n + 1, acc, c :: cs =>
    if c.isDigit then parseDigitsNAux n (acc * 10 + digitVal c) cs else none

/-- Exactly `n` ASCII digits. -/
def parseDigitsN (n : Nat) (cs : List Char) : Option (Nat × List Char) :=
  parseDigitsNAux n 0 cs

/-- One or two ASCII digits (luxon `M`, `d`, `h`: in every format below the
token is followed by a non-digit literal, so the greedy digit run decides
the match and regex backtracking adds nothing). -/
def parseDigits1or2 (cs : List Char) : Option (Nat × List Char) :=
  match takeDigits cs with
  | ([d], rest) => some (digitVal d, rest)
  | ([d1, d2], rest) => some (digitVal d1 * 10 + digitVal d2, rest)
  | _ => none

/-- Three-letter English month abbreviation (luxon `MMM`, en locale,
case-insensitive). -/
def parseMonth3 (cs : List Char) : Option (Nat × List Char) :=
  match cs with
  | a :: b :: c :: rest =>
    let w := String.mk [a.toLower, b.toLower, c.toLower]
    let mo :=
      if w = "jan" then some 1 else if w = "feb" then some 2
      else if w = "mar" then some 3 else if w = "apr" then some 4
      else if w = "may" then some 5 else if w = "jun" then some 6
      else if w = "jul" then some 7 else if w = "aug" then some 8
      else if w = "sep" then some 9 else if w = "oct" then some 10
      else if w = "nov" then some 11 else if w = "dec" then some 12
      else none
    match mo with
    | some n => some (n, rest)
    | none => none
  | _ => none

/-- Meridiem token (luxon `a`, en locale, case-insensitive): returns
whether it is PM. -/
def parseMeridiem (cs : List Char) : Option (Bool × List Char) :=
  match cs with
  | a :: m :: rest =>
    if m.toLower = 'm' then
      if a.toLower = 'a' then some (false, rest)
      else if a.toLower = 'p' then some (true, rest)
      else none
    else none
  | _ => none

/-- 12-hour clock to 24-hour: `12 AM → 0`, `12 PM → 12`. -/
def hour12To24 (h12 : Nat) (isPM : Bool) : Nat :=
  h12 % 12 + (if isPM then 12 else 0)

/-- Strict parse of `"MMM dd yyyy hh:mm a"` (e.g. `Feb 28 2025 02:00 PM`)
in zone UTC, to epoch milliseconds. -/
def parseFmtMMMddyyyy (s : String) : Option Int := do
  let (mo, r1) ← parseMonth3 s.data
  let r2 ← expectChar ' ' r1
  let (d, r3) ← parseDigitsN 2 r2
  let r4 ← expectChar ' ' r3
  let (y, r5) ← parseDigitsN 4 r4
  let r6 ← expectChar ' ' r5
  let (h12, r7) ← parseDigitsN 2 r6
  let r8 ← expectChar ':' r7
  let (mi, r9) ← parseDigitsN 2 r8
  let r10 ← expectChar ' ' r9
  let (isPM, r11) ← parseMeridiem r10
  if r11.isEmpty ∧ 1 ≤ h12 ∧ h12 ≤ 12 ∧ validCivil y mo d (hour12To24 h12 isPM) mi 0 0 then
    some (civilToMillis y mo d (hour12To24 h12 isPM) mi 0 0)
  else none

/-- Shared core of the `yyyy-MM-dd` date part. -/
def parseYMD (cs : List Char) : Option (Nat × Nat × Nat × List Char) := do
  let (y, r1) ← parseDigitsN 4 cs
  let r2 ← expectChar '-' r1
  let (mo, r3) ← parseDigitsN 2 r2
  let r4 ← expectChar '-' r3
  let (d, r5) ← parseDigitsN 2 r4
  some (y, mo, d, r5)

/-- Shared core of the `HH:mm:ss` time part. -/
def parseHMS (cs : List Char) : Option (Nat × Nat × Nat × List Char) := do
  let (hh, r1) ← parseDigitsN 2 cs
  let r2 ← expectChar ':' r1
  let (mi, r3) ← parseDigitsN 2 r2
  let r4 ← expectChar ':' r3
  let (ss, r5) ← parseDigitsN 2 r4
  some (hh, mi, ss, r5)

/-- Strict parse of `"yyyy-MM-dd'T'HH:mm:ss'Z'"` (the `Z` is a literal;
zone UTC). -/
def parseFmtIsoZ (s : String) : Option Int := do
  let (y, mo, d, r1) ← parseYMD s.data
  let r2 ← expectChar 'T' r1
  let (hh, mi, ss, r3) ← parseHMS r2
  let r4 ← expectChar 'Z' r3
  if r4.isEmpty ∧ validCivil y mo d hh mi ss 0 then
    some (civilToMillis y mo d hh mi ss 0)
  else none

/-- Strict parse of `"yyyy-MM-dd'T'HH:mm:ss.SSS'Z'"`. -/
def parseFmtIsoMsZ (s : String) : Option Int := do
  let (y, mo, d, r1) ← parseYMD s.data
  let r2 ← expectChar 'T' r1
  let (hh, mi, ss, r3) ← parseHMS r2
  let r4 ← expectChar '.' r3
  let (ms, r5) ← parseDigitsN 3 r4
  let r6 ← expectChar 'Z' r5
  if r6.isEmpty ∧ validCivil y mo d hh mi ss ms then
    some (civilToMillis y mo d hh mi ss ms)
  else none

/-- Strict parse of `"yyyy-MM-dd HH:mm:ss"`. -/
def parseFmtYmdHms (s : String) : Option Int := do
  let (y, mo, d, r1) ← parseYMD s.data
  let r2 ← expectChar ' ' r1
  let (hh, mi, ss, r3) ← parseHMS r2
  if r3.isEmpty ∧ validCivil y mo d hh mi ss 0 then
    some (civilToMillis y mo d hh mi ss 0)
  else none

/-- Shared core of the `M/d/yyyy` date part. -/
def parseMDY (cs : List Char) : Option (Nat × Nat × Nat × List Char) := do
  let (mo, r1) ← parseDigits1or2 cs
  let r2 ← expectChar '/' r1
  let (d, r3) ← parseDigits1or2 r2
  let r4 ← expectChar '/' r3
  let (y, r5) ← parseDigitsN 4 r4
  some (y, mo, d, r5)

/-- Strict parse of `"M/d/yyyy HH:mm:ss"` (e.g. `2/28/2025 14:00:00`). -/
def parseFmtMdyHms (s : String) : Option Int := do
  let (y, mo, d, r1) ← parseMDY s.data
  let r2 ← expectChar ' ' r1
  let (hh, mi, ss, r3) ← parseHMS r2
  if r3.isEmpty ∧ validCivil y mo d hh mi ss 0 then
    some (civilToMillis y mo d hh mi ss 0)
  else none

/-- Strict parse of `"M/d/yyyy h:mm a"` (e.g. `2/28/2025 2:00 PM`). -/
def parseFmtMdyHma (s : String) : Option Int := do
  let (y, mo, d, r1) ← parseMDY s.data
  let r2 ← expectChar ' ' r1
  let (h12, r3) ← parseDigits1or2 r2
  let r4 ← expectChar ':' r3
  let (mi, r5) ← parseDigitsN 2 r4
  let r6 ← expectChar ' ' r5
  let (isPM, r7) ← parseMeridiem r6
  if r7.isEmpty ∧ 1 ≤ h12 ∧ h12 ≤ 12 ∧ validCivil y mo d (hour12To24 h12 isPM) mi 0 0 then
    some (civilToMillis y mo d (hour12To24 h12 isPM) mi 0 0)
  else none

/-- UTC-offset suffix of an ISO string: `Z`, `±HH:mm`, `±HHmm` or `±HH`,
in minutes. -/
def parseOffset (cs : List Char) : Option (Int × List Char) :=
  match cs with
  | ['Z'] => some (0, [])
  | sign :: rest =>
    if sign = '+' ∨ sign = '-' then
      match parseDigitsN 2 rest with
      | some (oh, r1) =>
        let signed : Int → Int := fun v => if sign = '-' then -v else v
        (match r1 with
         | ':' :: r2 =>
           match parseDigitsN 2 r2 with
           | some (om, r3) => some (signed ((oh : Int) * 60 + om), r3)
           | none => none
         | _ =>
           match parseDigitsN 2 r1 with
           | some (om, r3) => some (signed ((oh : Int) * 60 + om), r3)
           | none => some (signed ((oh : Int) * 60), r1))
      | none => none
    else none
  | [] => none

/-- Generic ISO-8601 parse in `{ zone: "UTC" }` (luxon `DateTime.fromISO`),
restricted to the calendar-date core grammar
`yyyy-MM-dd['T'HH:mm[:ss[.SSS]][offset]]`; a missing offset is read in the
given UTC zone.  Week-date, ordinal-date, basic-format and time-only ISO
shapes accepted by luxon are outside this model. -/
def fromISOUTC (s : String) : Option Int := do
  let (y, mo, d, r1) ← parseYMD s.data
  match r1 with
  | [] => if validCivil y mo d 0 0 0 0 then some (civilToMillis y mo d 0 0 0 0) else none
  | 'T' :: r2 => do
    let (hh, r3) ← parseDigitsN 2 r2
    let r4 ← expectChar ':' r3
    let (mi, r5) ← parseDigitsN 2 r4
    let (ss, ms, r6) ←
      match r5 with
      | ':' :: r7 => do
        let (ss, r8) ← parseDigitsN 2 r7
        match r8 with
        | '.' :: r9 => do
          let (ms, r10) ← parseDigitsN 3 r9
          some (ss, ms, r10)
        | _ => some (ss, 0, r8)
      | _ => some (0, 0, r5)
    let (off, rEnd) ←
      match r6 with
      | [] => some ((0 : Int), ([] : List Char))
      | tail => parseOffset tail
    if rEnd.isEmpty ∧ validCivil y mo d hh mi ss ms then
      some (civilToMillis y mo d hh mi ss ms - off * 60000)
    else none
  | _ => none

/-! ### Zones and the conversion result -/

/-- A (valid) target timezone: its UTC offset, in minutes, at a given
instant. -/
structure TimeZone where
  offsetAt : Int → Int

/-- A zone of constant offset (e.g. `-300` for America/New_York in
winter). -/
def fixedZone (off : Int) : TimeZone := ⟨fun _ => off⟩

/-- The value `date.setZone(timeZone).toISO()` renders: the instant
(milliseconds since epoch) together with the target zone's offset used for
rendering. -/
structure ZonedDateTime where
  epochMs : Int
  offsetMin : Int
deriving DecidableEq

/-- `setZone` keeps the instant and re-expresses it in the target zone. -/
def setZone (t : Int) (tz : TimeZone) : ZonedDateTime :=
  ⟨t, tz.offsetAt t⟩

/-- Result of `convertAlchemyDate`: a converted (re-zoned) instant, or the
raw string passed through unchanged by the catch-block fallback. -/
inductive ConvertResult where
  | converted (zdt : ZonedDateTime)
  | passthrough (s : String)
deriving DecidableEq

/-- The six `formats` entries of part_000's `convertAlchemyDate`, in
source order. -/
inductive AlchemyFormat where
  | mmmDdYyyyHhMmA  -- "MMM dd yyyy hh:mm a"
  | isoZ            -- "yyyy-MM-dd'T'HH:mm:ss'Z'"
  | isoMsZ          -- "yyyy-MM-dd'T'HH:mm:ss.SSS'Z'"
  | ymdHms          -- "yyyy-MM-dd HH:mm:ss"
  | mdyHms          -- "M/d/yyyy HH:mm:ss"
  | mdyHma          -- "M/d/yyyy h:mm a"
deriving DecidableEq

/-- `DateTime.fromFormat(dateString, format, { zone: "UTC" })` for each
listed format. -/
def parseFormat : AlchemyFormat → String → Option Int
  | .mmmDdYyyyHhMmA, s => parseFmtMMMddyyyy s
  | .isoZ, s => parseFmtIsoZ s
  | .isoMsZ, s => parseFmtIsoMsZ s
  | .ymdHms, s => parseFmtYmdHms s
  | .mdyHms, s => parseFmtMdyHms s
  | .mdyHma, s => parseFmtMdyHma s

/-- The `formats` array of part_000 (lines 93–100), in source order. -/
def alchemyFormats : List AlchemyFormat :=
  [.mmmDdYyyyHhMmA, .isoZ, .isoMsZ, .ymdHms, .mdyHms, .mdyHma]

/-- The `formats` array of googleMiddleware.js (lines 58–62): only the
first three entries. -/
def gmFormats : List AlchemyFormat :=
  [.mmmDdYyyyHhMmA, .isoZ, .isoMsZ]

/-- The `for (let format of formats) { … if (date.isValid) break; }` loop:
try each format in order and stop at the first valid parse. -/
def tryFormats : List AlchemyFormat → String → Option Int
  | [], _ => none
  | f :: rest, s =>
    match parseFormat f s with
    | some t => some t
    | none => tryFormats rest s

/-- `s.includes(sub)` (JS substring test). -/
def listInfix (pat : List Char) : List Char → Bool
  | [] => pat.isEmpty
  | c :: cs => List.isPrefixOf pat (c :: cs) || listInfix pat cs

/-- JS `String.prototype.includes`. -/
def strIncludes (s pat : String) : Bool :=
  listInfix pat.data s.data

/-- Single-character `String.prototype.includes`. -/
def containsChar (s : String) (c : Char) : Bool :=
  s.data.any (fun a => a == c)

/-- The ISO-passthrough test of the catch block:
`dateString.includes('T') && (dateString.includes('Z') ||
dateString.includes('+'))`. -/
def looksIsoLike (s : String) : Bool :=
  containsChar s 'T' && (containsChar s 'Z' || containsChar s '+')

/-- `convertAlchemyDate(dateString, timeZone)` from src/unnamed/part_000
lines 81–134 (identical in part_005's enhanced router and part_006):
empty input throws, each of the six formats is tried in order, then a
generic ISO parse; a still-invalid date throws; the catch block passes a
`T`-and-`Z`/`+` containing string through unchanged and otherwise yields
`null` (`none`). -/
def convertAlchemyDate (s : String) (tz : TimeZone) : Option ConvertResult :=
  if s = "" then none
  else
    match tryFormats alchemyFormats s with
    | some t => some (.converted (setZone t tz))
    | none =>
      match fromISOUTC s with
      | some t => some (.converted (setZone t tz))
      | none =>
        if looksIsoLike s then some (.passthrough s) else none

/-- `convertAlchemyDate(dateString, timeZone)` from googleMiddleware.js
lines 50–88: the three-format variant.  Its `catch` block is unreachable
for string inputs (luxon returns an invalid `DateTime` instead of throwing,
and the function returns `null` at the `!date.isValid` check first), so the
all-formats-failed outcome is `null`, never a passthrough. -/
def convertAlchemyDateGM (s : String) (tz : TimeZone) : Option ConvertResult :=
  if s = "" then none
  else
    match tryFormats gmFormats s with
    | some t => some (.converted (setZone t tz))
    | none =>
      match fromISOUTC s with
      | some t => some (.converted (setZone t tz))
      | none => none

/-! ## The recent-write cache (part_000 lines 166–190)

`recentEvents` is a JS `Map` from logical event id to
`{ googleEventId, timestamp }`; timestamps are `Date.now()` milliseconds.
A `Map` has unique keys, so it is modelled as a function. -/

/-- `RECENT_EVENT_EXPIRY = 5 * 60 * 1000`. -/
def RECENT_EVENT_EXPIRY : Int := 5 * 60 * 1000

/-- One `recentEvents` entry. -/
structure RecentEntry where
  googleEventId : String
  timestamp : Int
deriving DecidableEq

/-- The `recentEvents` map. -/
abbrev RecentCache := String → Option RecentEntry

/-- A fresh / cleared `recentEvents` map. -/
def emptyRecentCache : RecentCache := fun _ => none

/-- `addRecentEvent(eventId, googleEventId)` evaluated at time `now`:
sets the entry with `timestamp: Date.now()`, then deletes every entry with
`Date.now() - value.timestamp > RECENT_EVENT_EXPIRY`. -/
def addRecentEvent (now : Int) (c : RecentCache) (eventId googleEventId : String) :
    RecentCache :=
  fun k =>
    if k = eventId then some ⟨googleEventId, now⟩
    else
      match c k with
      | some e => if now - e.timestamp > RECENT_EVENT_EXPIRY then none else some e
      | none => none

/-- `getRecentEvent(eventId)` evaluated at time `now`: the stored id when
the entry exists and `Date.now() - entry.timestamp <= RECENT_EVENT_EXPIRY`,
else `null`. -/
def getRecentEvent (now : Int) (c : RecentCache) (eventId : String) : Option String :=
  match c eventId with
  | some e => if now - e.timestamp ≤ RECENT_EVENT_EXPIRY then some e.googleEventId else none
  | none => none

/-- Line 432 of part_000:
`existingGoogleEventId = recentGoogleEventId || trackedGoogleEventId` —
the cache tier short-circuits the durable tier (by JS truthiness). -/
def lookupExisting (now : Int) (c : RecentCache) (tracking : Mappings)
    (eventId : String) : Option String :=
  jsOrOpt (getRecentEvent now c eventId) (mapLookup tracking eventId)

/-- Every entry of the cache (expired or not) agrees with the durable
tracking store.  part_000 establishes this by writing
`eventTrackingData[eventId] = id` alongside every `addRecentEvent` call
and clearing both together. -/
def cacheConsistent (c : RecentCache) (tracking : Mappings) : Prop :=
  ∀ k e, c k = some e → mapLookup tracking k = some e.googleEventId

/-! ## Stale-reference verification (part_005, enhanced router, lines 421–445)

Strategy 1 of `findExistingEvent`: when the in-memory `eventCache` holds an
id for the record, the code issues a GET for that event and keeps the
cached id whenever `verifyResponse.ok` — it never inspects the returned
event's `status`.  A Google Calendar GET answers 200 (with
`status: "cancelled"`) for a cancelled event and 404 only when the event is
gone, modelled as `some event` / `none`. -/

/-- The calendar-side view of an event as returned by a lookup; only the
`status` field (`"confirmed"` / `"cancelled"`) is relevant here. -/
structure RemoteEvent where
  status : String
deriving DecidableEq

/-- Strategy 1 of `findExistingEvent`: returns the update-target id (if
any) and the possibly-invalidated cache.  `(none, cache')` means the
strategy found nothing and the code falls through to strategies 2–4. -/
def verifyCachedStrategy (cache : Mappings) (recordId : String)
    (remote : String → Option RemoteEvent) : Option String × Mappings :=
  match mapLookup cache recordId with
  | some cid =>
    match remote cid with
    | some _ => (some cid, cache)
    | none => (none, mapErase cache recordId)
  | none => (none, cache)

/-! ## The googleMiddleware.js `/create-event` route (lines 150–302)

The handler is a pure function of the request, the mapping store, and the
responses the remote collaborators would return; every calendar mutation
it issues is recorded in a call trace.  `reminders` is forwarded verbatim
and carries no reconciliation content, so it is not modelled. -/

/-- The request body fields the route reads.  `startDateTime` stands for
`req.body.start && req.body.start.dateTime` (absent object, absent field
and empty string are all falsy and collapse to `none`/`some ""`). -/
structure GMReq where
  summary : Option String
  description : Option String
  location : Option String
  calendarId : Option String
  timeZone : Option String
  startDateTime : Option String
  startUse : Option String
  endDateTime : Option String
  endUse : Option String
deriving DecidableEq

/-- Start-time resolution of the route: `req.body.start.dateTime` when
truthy, else `req.body.StartUse` when truthy, else undefined. -/
def gmStartTime (req : GMReq) : Option String :=
  if jsTruthy req.startDateTime then req.startDateTime
  else if jsTruthy req.startUse then req.startUse else none

/-- End-time resolution, mirroring `gmStartTime`. -/
def gmEndTime (req : GMReq) : Option String :=
  if jsTruthy req.endDateTime then req.endDateTime
  else if jsTruthy req.endUse then req.endUse else none

/-- Outcome of the PATCH issued to update an existing event. -/
inductive PatchResult where
  | notFound            -- HTTP 404: the counterpart was deleted out-of-band
  | ok                  -- 2xx: update succeeded
  | err (msg : String)  -- other non-ok status; `msg` is the stringified error body
deriving DecidableEq

/-- Outcome of the POST issued to insert a new event. -/
inductive CreateResult where
  | ok (id : String)    -- 2xx: created; `id` is `data.id`
  | err (msg : String)  -- non-ok; `msg` is the stringified error body
deriving DecidableEq

/-- The event resource sent to the calendar API. -/
structure EventBody where
  summary : String
  description : String
  location : String
  startDT : ConvertResult
  endDT : ConvertResult
  timeZone : String
deriving DecidableEq

/-- A calendar mutation issued by the handler. -/
inductive CalCall where
  | insert (calendarId : String) (body : EventBody)
  | patch (calendarId eventId : String) (body : EventBody)
deriving DecidableEq

/-- The event resource the route sends: summary, description, location,
the two converted date-times with the request timezone, with defaults as
in the source. -/
def gmEventBody (req : GMReq) (sdt edt : ConvertResult) : EventBody :=
  ⟨jsOr req.summary "", jsOr req.description "", jsOr req.location "",
    sdt, edt, jsOr req.timeZone "America/New_York"⟩

/-- The JSON response of the route, restricted to the fields the spec
talks about (`event` is represented by its `id`). -/
structure GMResponse where
  status : Nat
  action : Option String
  eventIdOut : Option String
  erCode : Option String
  error : Option String
deriving DecidableEq

/-- Handler outcome: HTTP response, final mapping store, calendar calls
issued (in order). -/
structure GMOutcome where
  resp : GMResponse
  mappings : Mappings
  calls : List CalCall
deriving DecidableEq

/-- `createNewEvent(accessToken, calendarId, eventBody, erCode)`
(googleMiddleware.js lines 118–147): issues the insert; on a non-ok
response throws `Google Calendar Error: …`; on success stores the mapping
`eventMappings[erCode] = data.id` when `erCode` is truthy, and returns the
created event. -/
def createNewEvent (calendarId : String) (body : EventBody) (erCode : Option String)
    (resp : CreateResult) (m : Mappings) :
    Except String String × Mappings × List CalCall :=
  match resp with
  | .ok id =>
    let m' := if jsTruthy erCode then mapSet m (erCode.getD "") id else m
    (Except.ok id, m', [CalCall.insert calendarId body])
  | .err msg =>
    (Except.error ("Google Calendar Error: " ++ msg), m, [CalCall.insert calendarId body])

/-- Success response shared by the `created` / `updated` / `recreated`
exits. -/
def gmSuccess (action id : String) (erCode : Option String) : GMResponse :=
  { status := 200, action := some action, eventIdOut := some id,
    erCode := erCode, error := none }

/-- The outer-catch 500 response `{ error: error.message }`. -/
def gmError500 (msg : String) : GMResponse :=
  { status := 500, action := none, eventIdOut := none, erCode := none,
    error := some msg }

/-- A 400 validation response `{ error: … }`. -/
def gmError400 (msg : String) : GMResponse :=
  { status := 400, action := none, eventIdOut := none, erCode := none,
    error := some msg }

/-- `router.post("/create-event")` of googleMiddleware.js, shallowly
embedded.  Parameters beyond the request and the store:
`tokenOk` — whether `getGoogleAccessToken()` yielded a token;
`zones` — the IANA timezone database (name to offset behaviour);
`patchResp` — the response to the PATCH, when one is issued;
`createResp`, `createResp2` — the responses to the first and (in the
inner-catch retry) second insert, when issued. -/
def createEventRoute (req : GMReq) (m : Mappings) (tokenOk : Bool)
    (zones : String → TimeZone) (patchResp : PatchResult)
    (createResp createResp2 : CreateResult) : GMOutcome :=
  let summary := jsOr req.summary ""
  let calendarId := jsOr req.calendarId "primary"
  let startTime : Option String := gmStartTime req
  let endTime : Option String := gmEndTime req
  if ¬ jsTruthy startTime ∨ ¬ jsTruthy endTime then
    ⟨gmError400 "Missing start or end time", m, []⟩
  else
    let erCode := extractERCode (some summary)
    if ¬ tokenOk then
      ⟨gmError500 "Failed to obtain Google access token", m, []⟩
    else
      let startISO := convertAlchemyDateGM (startTime.getD "")
        (zones (jsOr req.timeZone "America/New_York"))
      let endISO := convertAlchemyDateGM (endTime.getD "")
        (zones (jsOr req.timeZone "America/New_York"))
      match startISO, endISO with
      | some sdt, some edt =>
        let eventBody : EventBody := gmEventBody req sdt edt
        let existing := match erCode with
          | some er => if jsTruthy (mapLookup m er) then mapLookup m er else none
          | none => none
        match erCode, existing with
        | some er, some eventId =>
          -- update branch: PATCH the stored counterpart
          let patchCall := CalCall.patch calendarId eventId eventBody
          (match patchResp with
           | .notFound =>
             -- 404: remove the stale mapping and create a new event
             let m1 := mapErase m er
             (match createNewEvent calendarId eventBody (some er) createResp m1 with
              | (Except.ok newId, m2, c2) =>
                ⟨gmSuccess "recreated" newId (some er), m2, patchCall :: c2⟩
              | (Except.error emsg, m2, c2) =>
                -- the throw lands in the inner catch
                if strIncludes emsg "404" then
                  let m3 := mapErase m2 er
                  (match createNewEvent calendarId eventBody (some er) createResp2 m3 with
                   | (Except.ok id2, m4, c3) =>
                     ⟨gmSuccess "recreated" id2 (some er), m4, patchCall :: c2 ++ c3⟩
                   | (Except.error e2, m4, c3) =>
                     ⟨gmError500 e2, m4, patchCall :: c2 ++ c3⟩)
                else
                  ⟨gmError500 emsg, m2, patchCall :: c2⟩)
           | .ok =>
             ⟨gmSuccess "updated" eventId (some er), m, [patchCall]⟩
           | .err msg =>
             -- `throw new Error("Google Calendar Update Error: …")`, inner catch
             let emsg := "Google Calendar Update Error: " ++ msg
             if strIncludes emsg "404" then
               let m1 := mapErase m er
               (match createNewEvent calendarId eventBody (some er) createResp m1 with
                | (Except.ok newId, m2, c2) =>
                  ⟨gmSuccess "recreated" newId (some er), m2, patchCall :: c2⟩
                | (Except.error e2, m2, c2) =>
                  ⟨gmError500 e2, m2, patchCall :: c2⟩)
             else
               ⟨gmError500 emsg, m, [patchCall]⟩)
        | _, _ =>
          -- no ER code, or no existing mapping: plain create
          (match createNewEvent calendarId eventBody erCode createResp m with
           | (Except.ok id, m', calls) =>
             ⟨gmSuccess "created" id erCode, m', calls⟩
           | (Except.error emsg, m', calls) =>
             ⟨gmError500 emsg, m', calls⟩)
      | _, _ =>
        ⟨gmError400 "Invalid date format", m, []⟩

/-- `router.delete("/tracked-events/:erCode")` (googleMiddleware.js lines
321–339): removes one mapping when `eventMappings[erCode]` is truthy
(200), else answers 404 leaving the store alone. -/
def deleteTrackedRoute (m : Mappings) (erCode : String) : Nat × Mappings :=
  if jsTruthy (mapLookup m erCode) then (200, mapErase m erCode)
  else (404, m)

/-! ## Concrete scenario constants

Inputs used by witnesses and counterexamples; the request mirrors the
spec's concrete scenario
`{summary: "ER15 - HPLC", StartUse: "Feb 27 2025 07:00 PM", …}`. -/

/-- The spec's concrete scenario request. -/
def req0 : GMReq :=
  { summary := some "ER15 - HPLC", description := some "Water test",
    location := none, calendarId := none,
    timeZone := some "America/New_York",
    startDateTime := none, startUse := some "Feb 27 2025 07:00 PM",
    endDateTime := none, endUse := some "Feb 27 2025 08:00 PM" }

/-- A timezone database mapping every name to UTC−05:00 (America/New_York
in winter). -/
def zones0 : String → TimeZone := fun _ => fixedZone (-300)

/-- A remote calendar in which event `e1` exists with status
`"cancelled"` and nothing else exists. -/
def remoteCancelled0 : String → Option RemoteEvent :=
  fun c => if c = "e1" then some ⟨"cancelled"⟩ else none

/-! # Theorems -/

/-! ## Mapping-store lemmas -/

theorem mapLookup_mapSet_self (m : Mappings) (k v : String) :
    mapLookup (mapSet m k v) k = some v := by
  induction m with
  | nil => simp [mapSet, mapLookup]
  | cons kv rest ih =>
    obtain ⟨k', v'⟩ := kv
    by_cases h : k = k'
    · simp [mapSet, h, mapLookup]
    · simp [mapSet, h, mapLookup, ih]

theorem mapLookup_mapSet_ne (m : Mappings) (k v k' : String) (h : k' ≠ k) :
    mapLookup (mapSet m k v) k' = mapLookup m k' := by
  induction m with
  | nil => simp [mapSet, mapLookup, h]
  | cons kv rest ih =>
    obtain ⟨k2, v2⟩ := kv
    by_cases h2 : k = k2
    · subst h2
      simp [mapSet, mapLookup, h]
    · by_cases h3 : k' = k2 <;> simp [mapSet, mapLookup, h2, h3, ih]

theorem mapLookup_mapErase_self (m : Mappings) (k : String) :
    mapLookup (mapErase m k) k = none := by
  induction m with
  | nil => rfl
  | cons kv rest ih =>
    obtain ⟨k2, v2⟩ := kv
    unfold mapErase at ih ⊢
    rw [List.filter_cons]
    by_cases h : k2 = k
    · simp [h, ih]
    · simp [h, mapLookup, Ne.symm h, ih]

theorem mapLookup_mapErase_ne (m : Mappings) (k k' : String) (h : k' ≠ k) :
    mapLookup (mapErase m k) k' = mapLookup m k' := by
  induction m with
  | nil => rfl
  | cons kv rest ih =>
    obtain ⟨k2, v2⟩ := kv
    unfold mapErase at ih ⊢
    rw [List.filter_cons]
    by_cases h2 : k2 = k
    · subst h2
      simp [mapLookup, h, ih]
    · by_cases h3 : k' = k2 <;> simp [h2, h3, mapLookup, ih]

/-! ## C10 — deleting one tracked mapping -/

/-- C10 counterexample: the route decides existence by JS truthiness of
the stored value, so a store that does hold a mapping for `ER1` (with the
empty string as its event id) is answered 404 and left unchanged, where
the claim requires 200 and removal. -/
theorem deleteTracked_truthiness_counterexample :
    mapLookup [("ER1", "")] "ER1" = some "" ∧
    deleteTrackedRoute [("ER1", "")] "ER1" = (404, [("ER1", "")]) := by
  constructor <;> rfl

/-- C10 (amended): the delete route keyed on JS truthiness: with no truthy
mapping for the identifier it answers 404 and leaves the store unchanged
(a mapping whose stored id is the empty string counts as absent); with a
truthy mapping it answers 200, removes exactly that key, and leaves every
other mapping untouched. -/
theorem deleteTracked_route_behaviour (m : Mappings) (er : String) :
    (jsTruthy (mapLookup m er) = false → deleteTrackedRoute m er = (404, m))
  ∧ (jsTruthy (mapLookup m er) = true →
      (deleteTrackedRoute m er).1 = 200 ∧
      mapLookup (deleteTrackedRoute m er).2 er = none ∧
      ∀ k, k ≠ er → mapLookup (deleteTrackedRoute m er).2 k = mapLookup m k) := by
  constructor
  · intro h
    simp [deleteTrackedRoute, h]
  · intro h
    have hroute : deleteTrackedRoute m er = (200, mapErase m er) := by
      simp [deleteTrackedRoute, h]
    rw [hroute]
    exact ⟨rfl, mapLookup_mapErase_self m er,
      fun k hk => mapLookup_mapErase_ne m er k hk⟩

/-- Witness for C10's theorem at concrete stores: a present truthy mapping
is removed with 200; an absent one yields 404 and the untouched store. -/
theorem deleteTracked_route_behaviour_witness :
    (deleteTrackedRoute [("ER1", "e1"), ("ER2", "e2")] "ER1").1 = 200 ∧
    mapLookup (deleteTrackedRoute [("ER1", "e1"), ("ER2", "e2")] "ER1").2 "ER1" = none ∧
    mapLookup (deleteTrackedRoute [("ER1", "e1"), ("ER2", "e2")] "ER1").2 "ER2" = some "e2" ∧
    deleteTrackedRoute [("ER7", "e7")] "ER9" = (404, [("ER7", "e7")]) := by
  refine ⟨((deleteTracked_route_behaviour [("ER1", "e1"), ("ER2", "e2")] "ER1").2
      (by decide)).1,
    ((deleteTracked_route_behaviour [("ER1", "e1"), ("ER2", "e2")] "ER1").2
      (by decide)).2.1,
    ?_, (deleteTracked_route_behaviour [("ER7", "e7")] "ER9").1 (by decide)⟩
  have h := ((deleteTracked_route_behaviour [("ER1", "e1"), ("ER2", "e2")] "ER1").2
      (by decide)).2.2 "ER2" (by decide)
  simpa using h

/-! ## C3 — cancelled counterparts on lookup -/

/-- C3 counterexample: a cached counterpart that the remote reports as
existing with status `"cancelled"` is returned as the update target with
the cache intact, while the genuine not-found case invalidates the cache
entry and falls through to creation — the two decisions differ. -/
theorem cancelled_lookup_counterexample :
    remoteCancelled0 "e1" = some ⟨"cancelled"⟩ ∧
    mapLookup [("R1", "e1")] "R1" = some "e1" ∧
    verifyCachedStrategy [("R1", "e1")] "R1" remoteCancelled0 =
      (some "e1", [("R1", "e1")]) ∧
    verifyCachedStrategy [("R1", "e1")] "R1" (fun _ => none) = (none, []) ∧
    verifyCachedStrategy [("R1", "e1")] "R1" remoteCancelled0 ≠
      verifyCachedStrategy [("R1", "e1")] "R1" (fun _ => none) := by
  refine ⟨rfl, rfl, rfl, rfl, ?_⟩
  decide

/-- C3 (amended): the strategy-1 verification keeps any counterpart the
remote lookup returns — it checks only that the lookup succeeded, never
the event's status, so a cancelled counterpart is still used as the update
target and the cached mapping is retained; only a genuine not-found lookup
invalidates the cache entry and falls through to re-creation. -/
theorem cancelled_lookup_kept_as_target (cache : Mappings) (rid cid : String)
    (remote : String → Option RemoteEvent) (h : mapLookup cache rid = some cid) :
    (∀ ev, remote cid = some ev →
      verifyCachedStrategy cache rid remote = (some cid, cache))
  ∧ (remote cid = none →
      verifyCachedStrategy cache rid remote = (none, mapErase cache rid)) := by
  constructor
  · intro ev hev
    simp [verifyCachedStrategy, h, hev]
  · intro hn
    simp [verifyCachedStrategy, h, hn]

/-- Witness for C3's amended theorem: a concrete cancelled counterpart is
kept as the update target, and a missing one invalidates the cache. -/
theorem cancelled_lookup_kept_as_target_witness :
    verifyCachedStrategy [("R1", "e1")] "R1" remoteCancelled0 =
      (some "e1", [("R1", "e1")]) ∧
    verifyCachedStrategy [("R1", "e1")] "R1" (fun _ => none) = (none, []) := by
  constructor
  · exact (cancelled_lookup_kept_as_target [("R1", "e1")] "R1" "e1"
      remoteCancelled0 rfl).1 ⟨"cancelled"⟩ rfl
  · have h := (cancelled_lookup_kept_as_target [("R1", "e1")] "R1" "e1"
      (fun _ => none) rfl).2 rfl
    simpa using h

/-! ## C4 — identifier precedence -/

/-- C4 counterexample: a payload carrying both the explicit field
`recordId: "999"` and the prefix-coded summary `"ER15 - HPLC"` resolves to
the summary prefix `ER15`, not to the explicit field's value. -/
theorem identifier_precedence_counterexample :
    resolveEventId (some "ER15 - HPLC") (some "Water test") (some "999")
      none none = some "ER15" ∧
    ("ER15" : String) ≠ "999" ∧ ("ER15" : String) ≠ "RID_999" := by
  refine ⟨rfl, by decide, by decide⟩

/-- C4 (amended): the summary/description-derived identifier takes
precedence; whenever the summary begins with a prefix code the resolution
returns that code whatever explicit fields are present, and the explicit
`recordId`/`id`/`record_id` field is used only when extraction from
summary and description yields nothing, wrapped as `RID_<value>`. -/
theorem identifier_resolution_summary_first :
    (∀ (summary : String) (d r i rs : Option String) (code : List Char),
        upperDigitsAt summary.data = some code → summary ≠ "" →
        resolveEventId (some summary) d r i rs = some (String.mk code))
  ∧ (∀ (s d r i rs : Option String) (rid : String),
        extractEventIdentifier s d = none →
        jsOrOpt (jsOrOpt r i) rs = some rid → rid ≠ "" →
        resolveEventId s d r i rs = some ("RID_" ++ rid)) := by
  constructor
  · intro summary d r i rs code hup hne
    unfold resolveEventId extractEventIdentifier
    simp [hne, hup]
  · intro s d r i rs rid hex hrid hne
    unfold resolveEventId
    rw [hex, hrid]
    simp [hne]

/-- Witness for C4's amended theorem at the counterexample payload and at
a payload with nothing extractable. -/
theorem identifier_resolution_summary_first_witness :
    resolveEventId (some "ER15 - HPLC") (some "Water test") (some "999")
      none none = some (String.mk ['E', 'R', '1', '5']) ∧
    resolveEventId (some "hplc run") (some "no codes here") (some "999")
      none none = some ("RID_" ++ "999") := by
  constructor
  · exact identifier_resolution_summary_first.1 "ER15 - HPLC"
      (some "Water test") (some "999") none none ['E', 'R', '1', '5']
      (by decide) (by decide)
  · exact identifier_resolution_summary_first.2 (some "hplc run")
      (some "no codes here") (some "999") none none "999"
      (by decide) (by decide) (by decide)

/-! ## Date-normalizer lemmas (C5, C6) -/

theorem parseFormat_empty (f : AlchemyFormat) : parseFormat f "" = none := by
  cases f <;> rfl

theorem tryFormats_empty (fmts : List AlchemyFormat) : tryFormats fmts "" = none := by
  induction fmts with
  | nil => rfl
  | cons f rest ih => simp [tryFormats, parseFormat_empty, ih]

theorem fromISOUTC_empty : fromISOUTC "" = none := rfl

theorem tryFormats_eq_findSome (fmts : List AlchemyFormat) (s : String) :
    tryFormats fmts s = fmts.findSome? (fun f => parseFormat f s) := by
  induction fmts with
  | nil => rfl
  | cons f rest ih =>
    cases hp : parseFormat f s <;> simp [tryFormats, List.findSome?, hp, ih]

/-- C5: the normalizer's source formats are tried in the one fixed source
order (`MMM dd yyyy hh:mm a` first, then the two ISO-with-`Z` formats,
then the remaining three); the loop stops at the first strict parse (it
equals a first-match search over the list); the generic ISO parse is
consulted only when every listed format failed; and every successful parse
is returned as the same instant re-expressed in the target timezone (the
parsed epoch instant paired with the target zone's offset at it). -/
theorem convertAlchemyDate_priority (s : String) (tz : TimeZone) :
    alchemyFormats = [AlchemyFormat.mmmDdYyyyHhMmA, AlchemyFormat.isoZ,
      AlchemyFormat.isoMsZ, AlchemyFormat.ymdHms, AlchemyFormat.mdyHms,
      AlchemyFormat.mdyHma]
  ∧ tryFormats alchemyFormats s = alchemyFormats.findSome? (fun f => parseFormat f s)
  ∧ (∀ t, tryFormats alchemyFormats s = some t →
      convertAlchemyDate s tz = some (ConvertResult.converted ⟨t, tz.offsetAt t⟩))
  ∧ (tryFormats alchemyFormats s = none → ∀ t, fromISOUTC s = some t →
      convertAlchemyDate s tz = some (ConvertResult.converted ⟨t, tz.offsetAt t⟩))
  ∧ (∀ z, convertAlchemyDate s tz = some (ConvertResult.converted z) →
      z.offsetMin = tz.offsetAt z.epochMs ∧
      (tryFormats alchemyFormats s = some z.epochMs ∨
        (tryFormats alchemyFormats s = none ∧ fromISOUTC s = some z.epochMs))) := by
  refine ⟨rfl, tryFormats_eq_findSome _ s, ?_, ?_, ?_⟩
  · intro t ht
    have hs : s ≠ "" := by
      intro he
      rw [he, tryFormats_empty] at ht
      exact Option.noConfusion ht
    simp [convertAlchemyDate, hs, ht, setZone]
  · intro hn t ht
    have hs : s ≠ "" := by
      intro he
      rw [he, fromISOUTC_empty] at ht
      exact Option.noConfusion ht
    simp [convertAlchemyDate, hs, hn, ht, setZone]
  · intro z hz
    obtain ⟨ze, zo⟩ := z
    by_cases hs : s = ""
    · rw [hs] at hz
      simp [convertAlchemyDate] at hz
    · cases htf : tryFormats alchemyFormats s with
      | some t =>
        simp [convertAlchemyDate, hs, htf, setZone] at hz
        obtain ⟨h1, h2⟩ := hz
        subst h1
        subst h2
        exact ⟨rfl, Or.inl rfl⟩
      | none =>
        cases hti : fromISOUTC s with
        | some t =>
          simp [convertAlchemyDate, hs, htf, hti, setZone] at hz
          obtain ⟨h1, h2⟩ := hz
          subst h1
          subst h2
          exact ⟨rfl, Or.inr ⟨rfl, rfl⟩⟩
        | none =>
          by_cases hl : looksIsoLike s <;>
            simp [convertAlchemyDate, hs, htf, hti, hl] at hz

/-- Witness for C5 at concrete inputs: the spec's scenario string parses
with the first format and is re-zoned to UTC−05:00; a bare calendar date
is only caught by the generic ISO fallback. -/
theorem convertAlchemyDate_priority_witness :
    convertAlchemyDate "Feb 27 2025 07:00 PM" (fixedZone (-300)) =
      some (ConvertResult.converted ⟨1740682800000, -300⟩) ∧
    convertAlchemyDate "2025-02-28" (fixedZone 60) =
      some (ConvertResult.converted ⟨1740700800000, 60⟩) := by
  constructor
  · exact (convertAlchemyDate_priority "Feb 27 2025 07:00 PM"
      (fixedZone (-300))).2.2.1 1740682800000 (by decide)
  · exact (convertAlchemyDate_priority "2025-02-28"
      (fixedZone 60)).2.2.2.1 (by decide) 1740700800000 (by decide)

/-- C6: when every listed source format and the generic ISO parse fail,
the normalizer returns the raw string unchanged exactly when it contains
the time separator `T` together with a `Z` or `+` marker, and the failure
value `null` otherwise. -/
theorem convertAlchemyDate_exhausted (s : String) (tz : TimeZone)
    (hf : tryFormats alchemyFormats s = none) (hi : fromISOUTC s = none) :
    convertAlchemyDate s tz =
      if looksIsoLike s then some (ConvertResult.passthrough s) else none := by
  by_cases hs : s = ""
  · subst hs
    have hl : looksIsoLike "" = false := rfl
    simp [convertAlchemyDate, hl]
  · simp [convertAlchemyDate, hs, hf, hi]

/-- Witness for C6: an unparseable string containing `T` and `+` passes
through unchanged; an unparseable plain word yields the failure value. -/
theorem convertAlchemyDate_exhausted_witness :
    convertAlchemyDate "nonsenseT+" (fixedZone 0) =
      some (ConvertResult.passthrough "nonsenseT+") ∧
    convertAlchemyDate "hello" (fixedZone 0) = none := by
  constructor
  · have h := convertAlchemyDate_exhausted "nonsenseT+" (fixedZone 0)
      (by decide) (by decide)
    rw [h]
    rfl
  · have h := convertAlchemyDate_exhausted "hello" (fixedZone 0)
      (by decide) (by decide)
    rw [h]
    rfl

/-! ## C9 — the recent-write cache -/

theorem cacheConsistent_empty (m : Mappings) :
    cacheConsistent emptyRecentCache m :=
  fun _ _ h => nomatch h

theorem cacheConsistent_write (c : RecentCache) (m : Mappings) (t : Int)
    (k g : String) (h : cacheConsistent c m) :
    cacheConsistent (addRecentEvent t c k g) (mapSet m k g) := by
  intro k' e he
  unfold addRecentEvent at he
  by_cases hk : k' = k
  · rw [if_pos hk] at he
    obtain rfl : RecentEntry.mk g t = e := Option.some.injEq _ _ ▸ he
    rw [hk, mapLookup_mapSet_self]
  · rw [if_neg hk] at he
    cases hck : c k' with
    | none =>
      rw [hck] at he
      exact nomatch he
    | some e0 =>
      rw [hck] at he
      by_cases hexp : t - e0.timestamp > RECENT_EVENT_EXPIRY
      · simp [hexp] at he
      · simp only [hexp, if_neg, if_false] at he
        obtain rfl : e0 = e := Option.some.injEq _ _ ▸ he
        rw [mapLookup_mapSet_ne m k g k' hk]
        exact h k' e0 hck

/-- C9: an entry written to the recent-write cache at time `t` answers a
lookup at time `now` with the stored counterpart id exactly when no more
than the five-minute expiry has elapsed, and `null` afterwards; and for a
cache consistent with the durable store, dropping the cache entirely never
changes the result of the existing-counterpart lookup, only which tier
supplies it. -/
theorem recentCache_expiry_and_tier :
    (∀ (t now : Int) (c : RecentCache) (k g : String),
        getRecentEvent now (addRecentEvent t c k g) k =
          if now - t ≤ RECENT_EVENT_EXPIRY then some g else none)
  ∧ (∀ (now : Int) (c : RecentCache) (m : Mappings) (k : String),
        cacheConsistent c m →
        lookupExisting now c m k = lookupExisting now emptyRecentCache m k) := by
  constructor
  · intro t now c k g
    simp [getRecentEvent, addRecentEvent]
  · intro now c m k hcons
    unfold lookupExisting
    cases hc : c k with
    | none => simp [getRecentEvent, hc, emptyRecentCache]
    | some e =>
      by_cases hexp : now - e.timestamp ≤ RECENT_EVENT_EXPIRY
      · have hm := hcons k e hc
        by_cases hg : e.googleEventId = ""
        · simp [getRecentEvent, hc, hexp, emptyRecentCache, jsOrOpt, jsTruthy, hg]
        · simp [getRecentEvent, hc, hexp, emptyRecentCache, jsOrOpt, jsTruthy, hg, hm]
      · simp [getRecentEvent, hc, hexp, emptyRecentCache]

/-- Witness for C9: a lookup at exactly the five-minute boundary still
answers, one millisecond later it expires, and a consistent concrete
cache-plus-store pair resolves identically with and without the cache. -/
theorem recentCache_expiry_and_tier_witness :
    getRecentEvent 300000 (addRecentEvent 0 emptyRecentCache "ER15" "g1") "ER15" =
      some "g1" ∧
    getRecentEvent 300001 (addRecentEvent 0 emptyRecentCache "ER15" "g1") "ER15" =
      none ∧
    lookupExisting 1000 (addRecentEvent 0 emptyRecentCache "ER15" "g1")
      (mapSet [] "ER15" "g1") "ER15" =
    lookupExisting 1000 emptyRecentCache (mapSet [] "ER15" "g1") "ER15" := by
  refine ⟨?_, ?_, ?_⟩
  · have h := recentCache_expiry_and_tier.1 0 300000 emptyRecentCache "ER15" "g1"
    rw [h]
    rfl
  · have h := recentCache_expiry_and_tier.1 0 300001 emptyRecentCache "ER15" "g1"
    rw [h]
    rfl
  · exact recentCache_expiry_and_tier.2 1000
      (addRecentEvent 0 emptyRecentCache "ER15" "g1") (mapSet [] "ER15" "g1")
      "ER15"
      (cacheConsistent_write emptyRecentCache [] 0 "ER15" "g1"
        (cacheConsistent_empty []))

/-! ## Route lemmas (C1, C2, C7, C8) -/

theorem extractERCode_nonempty (s : Option String) (e : String)
    (h : extractERCode s = some e) : e ≠ "" := by
  cases s with
  | none => exact nomatch h
  | some str =>
    simp only [extractERCode] at h
    by_cases hs : str = ""
    · simp [hs] at h
    · rw [if_neg hs] at h
      split at h
      · split at h
        · exact nomatch h
        · injection h with h'
          subst h'
          intro hcon
          have hd := congrArg String.data hcon
          simp at hd
      · exact nomatch h

theorem gmStartTime_nonempty (req : GMReq) (st : String)
    (h : gmStartTime req = some st) : st ≠ "" := by
  unfold gmStartTime at h
  by_cases h1 : jsTruthy req.startDateTime
  · rw [if_pos h1] at h
    rw [h] at h1
    simpa [jsTruthy] using h1
  · rw [if_neg h1] at h
    by_cases h2 : jsTruthy req.startUse
    · rw [if_pos h2] at h
      rw [h] at h2
      simpa [jsTruthy] using h2
    · rw [if_neg h2] at h
      exact nomatch h

theorem gmEndTime_nonempty (req : GMReq) (et : String)
    (h : gmEndTime req = some et) : et ≠ "" := by
  unfold gmEndTime at h
  by_cases h1 : jsTruthy req.endDateTime
  · rw [if_pos h1] at h
    rw [h] at h1
    simpa [jsTruthy] using h1
  · rw [if_neg h1] at h
    by_cases h2 : jsTruthy req.endUse
    · rw [if_pos h2] at h
      rw [h] at h2
      simpa [jsTruthy] using h2
    · rw [if_neg h2] at h
      exact nomatch h

/-! ## C7 — missing start or end time -/

/-- C7: a request whose start time or end time resolves under no accepted
alias is rejected with status 400 and the message
`Missing start or end time`; no calendar call is issued and the mapping
store is returned exactly as it was. -/
theorem missing_time_rejected (req : GMReq) (m : Mappings) (tok : Bool)
    (zones : String → TimeZone) (pr : PatchResult) (cr cr2 : CreateResult)
    (h : gmStartTime req = none ∨ gmEndTime req = none) :
    createEventRoute req m tok zones pr cr cr2 =
      ⟨gmError400 "Missing start or end time", m, []⟩ := by
  have hcond : ¬ jsTruthy (gmStartTime req) ∨ ¬ jsTruthy (gmEndTime req) := by
    cases h with
    | inl h => rw [h]; exact Or.inl (by simp [jsTruthy])
    | inr h => rw [h]; exact Or.inr (by simp [jsTruthy])
  simp only [createEventRoute]
  rw [if_pos hcond]

/-- Witness for C7: a request that misses the end time under both aliases
leaves a nonempty store untouched, issues no call, and answers 400. -/
theorem missing_time_rejected_witness :
    createEventRoute
      { req0 with endDateTime := none, endUse := none }
      [("A", "b")] true zones0 PatchResult.ok (CreateResult.ok "z")
      (CreateResult.ok "x") =
      ⟨gmError400 "Missing start or end time", [("A", "b")], []⟩ :=
  missing_time_rejected _ [("A", "b")] true zones0 PatchResult.ok
    (CreateResult.ok "z") (CreateResult.ok "x") (Or.inr (by decide))

/-! ## C1 — reconcile the same record twice -/

/-- C1: starting from an empty mapping store, submitting a record with ER
code `er` creates the counterpart (action `created`, id the one returned
by the remote insert) and stores the mapping `er → e`; resubmitting the
identical payload against the resulting store finds the mapping, patches
the same counterpart (action `updated`, same id) and leaves the mapping
store unchanged — exactly one counterpart. -/
theorem reconcile_twice_idempotent (req : GMReq) (zones : String → TimeZone)
    (er e st et : String) (sdt edt : ConvertResult)
    (pr : PatchResult) (cr cr2 cr2' : CreateResult)
    (hst : gmStartTime req = some st) (hend : gmEndTime req = some et)
    (her : extractERCode (some (jsOr req.summary "")) = some er)
    (hcs : convertAlchemyDateGM st
      (zones (jsOr req.timeZone "America/New_York")) = some sdt)
    (hce : convertAlchemyDateGM et
      (zones (jsOr req.timeZone "America/New_York")) = some edt)
    (he : e ≠ "") :
    createEventRoute req [] true zones pr (CreateResult.ok e) cr2 =
      ⟨gmSuccess "created" e (some er), [(er, e)],
        [CalCall.insert (jsOr req.calendarId "primary") (gmEventBody req sdt edt)]⟩ ∧
    createEventRoute req [(er, e)] true zones PatchResult.ok cr cr2' =
      ⟨gmSuccess "updated" e (some er), [(er, e)],
        [CalCall.patch (jsOr req.calendarId "primary") e (gmEventBody req sdt edt)]⟩ := by
  have hst' : st ≠ "" := gmStartTime_nonempty req st hst
  have het' : et ≠ "" := gmEndTime_nonempty req et hend
  have her' : er ≠ "" := extractERCode_nonempty _ _ her
  constructor
  · simp [createEventRoute, createNewEvent, hst, hend, her, hcs, hce,
      jsTruthy, hst', het', her', mapLookup, mapSet]
  · simp [createEventRoute, hst, hend, her, hcs, hce,
      jsTruthy, hst', het', her', he, mapLookup]

/-- Witness for C1 at the spec's concrete scenario: `ER15 - HPLC` is
created with the remote id `gcal_1` and then updated in place. -/
theorem reconcile_twice_idempotent_witness :
    createEventRoute req0 [] true zones0 PatchResult.ok
      (CreateResult.ok "gcal_1") (CreateResult.ok "x") =
      ⟨gmSuccess "created" "gcal_1" (some "ER15"), [("ER15", "gcal_1")],
        [CalCall.insert "primary"
          (gmEventBody req0 (ConvertResult.converted ⟨1740682800000, -300⟩)
            (ConvertResult.converted ⟨1740686400000, -300⟩))]⟩ ∧
    createEventRoute req0 [("ER15", "gcal_1")] true zones0 PatchResult.ok
      (CreateResult.ok "y") (CreateResult.ok "x") =
      ⟨gmSuccess "updated" "gcal_1" (some "ER15"), [("ER15", "gcal_1")],
        [CalCall.patch "primary" "gcal_1"
          (gmEventBody req0 (ConvertResult.converted ⟨1740682800000, -300⟩)
            (ConvertResult.converted ⟨1740686400000, -300⟩))]⟩ := by
  have h := reconcile_twice_idempotent req0 zones0 "ER15" "gcal_1"
    "Feb 27 2025 07:00 PM" "Feb 27 2025 08:00 PM"
    (ConvertResult.converted ⟨1740682800000, -300⟩)
    (ConvertResult.converted ⟨1740686400000, -300⟩)
    PatchResult.ok (CreateResult.ok "y") (CreateResult.ok "x") (CreateResult.ok "x")
    (by decide) (by decide) (by decide) (by decide) (by decide) (by decide)
  exact h

/-! ## C2 — stale-reference recovery -/

/-- C2: with a stored truthy mapping `er → e` whose PATCH answers 404, the
route (a) removes the stale mapping, (b) issues a create for a new
counterpart, (c) answers action `recreated`, and (d) stores the new
counterpart id `e2` under the same `er`. -/
theorem stale_mapping_recovered (req : GMReq) (m : Mappings)
    (zones : String → TimeZone) (er e e2 st et : String)
    (sdt edt : ConvertResult) (cr2 : CreateResult)
    (hst : gmStartTime req = some st) (hend : gmEndTime req = some et)
    (her : extractERCode (some (jsOr req.summary "")) = some er)
    (hcs : convertAlchemyDateGM st
      (zones (jsOr req.timeZone "America/New_York")) = some sdt)
    (hce : convertAlchemyDateGM et
      (zones (jsOr req.timeZone "America/New_York")) = some edt)
    (hm : mapLookup m er = some e) (he : e ≠ "") :
    createEventRoute req m true zones PatchResult.notFound
      (CreateResult.ok e2) cr2 =
      ⟨gmSuccess "recreated" e2 (some er), mapSet (mapErase m er) er e2,
        [CalCall.patch (jsOr req.calendarId "primary") e (gmEventBody req sdt edt),
         CalCall.insert (jsOr req.calendarId "primary") (gmEventBody req sdt edt)]⟩ ∧
    mapLookup (mapSet (mapErase m er) er e2) er = some e2 ∧
    mapLookup (mapErase m er) er = none := by
  have hst' : st ≠ "" := gmStartTime_nonempty req st hst
  have het' : et ≠ "" := gmEndTime_nonempty req et hend
  have her' : er ≠ "" := extractERCode_nonempty _ _ her
  refine ⟨?_, mapLookup_mapSet_self _ er e2, mapLookup_mapErase_self m er⟩
  simp [createEventRoute, createNewEvent, hst, hend, her, hcs, hce,
    jsTruthy, hst', het', her', he, hm]

/-- Witness for C2 at the concrete scenario: the stale `ER15 → gcal_1`
mapping is replaced by the freshly created `gcal_2` under `ER15`. -/
theorem stale_mapping_recovered_witness :
    createEventRoute req0 [("ER15", "gcal_1")] true zones0
      PatchResult.notFound (CreateResult.ok "gcal_2") (CreateResult.ok "x") =
      ⟨gmSuccess "recreated" "gcal_2" (some "ER15"),
        mapSet (mapErase [("ER15", "gcal_1")] "ER15") "ER15" "gcal_2",
        [CalCall.patch "primary" "gcal_1"
          (gmEventBody req0 (ConvertResult.converted ⟨1740682800000, -300⟩)
            (ConvertResult.converted ⟨1740686400000, -300⟩)),
         CalCall.insert "primary"
          (gmEventBody req0 (ConvertResult.converted ⟨1740682800000, -300⟩)
            (ConvertResult.converted ⟨1740686400000, -300⟩))]⟩ ∧
    mapLookup (mapSet (mapErase [("ER15", "gcal_1")] "ER15") "ER15" "gcal_2")
      "ER15" = some "gcal_2" ∧
    mapLookup (mapErase [("ER15", "gcal_1")] "ER15") "ER15" = none :=
  stale_mapping_recovered req0 [("ER15", "gcal_1")] zones0 "ER15" "gcal_1"
    "gcal_2" "Feb 27 2025 07:00 PM" "Feb 27 2025 08:00 PM"
    (ConvertResult.converted ⟨1740682800000, -300⟩)
    (ConvertResult.converted ⟨1740686400000, -300⟩)
    (CreateResult.ok "x")
    (by decide) (by decide) (by decide) (by decide) (by decide)
    (by decide) (by decide)

/-! ## C8 — when the mapping store is written -/

/-- C8 counterexample: on the path where the stored counterpart's PATCH
answers 404 and the subsequent remote create fails, the request ends in a
500 yet the mapping store has lost the stale entry — its contents are not
what they were when the request began. -/
theorem mapping_allOrNothing_counterexample :
    (createEventRoute req0 [("ER15", "gcal_1")] true zones0
      PatchResult.notFound (CreateResult.err "quota exceeded")
      (CreateResult.err "x")).resp.status = 500 ∧
    (createEventRoute req0 [("ER15", "gcal_1")] true zones0
      PatchResult.notFound (CreateResult.err "quota exceeded")
      (CreateResult.err "x")).mappings = [] ∧
    (createEventRoute req0 [("ER15", "gcal_1")] true zones0
      PatchResult.notFound (CreateResult.err "quota exceeded")
      (CreateResult.err "x")).mappings ≠ [("ER15", "gcal_1")] := by
  refine ⟨by decide, by decide, by decide⟩

theorem lookup_after_erase (mm : Mappings) (er k v : String)
    (h : mapLookup (mapErase mm er) k = some v) : mapLookup mm k = some v := by
  by_cases hk : k = er
  · subst hk
    rw [mapLookup_mapErase_self] at h
    exact nomatch h
  · rw [mapLookup_mapErase_ne _ _ _ hk] at h
    exact h

theorem lookup_after_set (mm : Mappings) (er id k v : String)
    (h : mapLookup (mapSet mm er id) k = some v) :
    mapLookup mm k = some v ∨ id = v := by
  by_cases hk : k = er
  · subst hk
    rw [mapLookup_mapSet_self] at h
    right
    injection h
  · rw [mapLookup_mapSet_ne _ _ _ _ hk] at h
    exact Or.inl h

/-- C8 (amended): mappings are only ever added or given a value by a
confirmed successful remote create — every entry of the post-request store
either was present unchanged before the request or carries the id returned
by a create that succeeded; and an existing truthy entry can only change
or disappear when the update attempt was answered with 404 or another
error (the stale-recovery path, which deletes the stale mapping before
re-creating, so a create failure there can leave the entry removed). -/
theorem mapping_write_discipline (req : GMReq) (m : Mappings) (tok : Bool)
    (zones : String → TimeZone) (pr : PatchResult) (cr cr2 : CreateResult) :
    (∀ k v,
      mapLookup (createEventRoute req m tok zones pr cr cr2).mappings k = some v →
      mapLookup m k = some v ∨ cr = CreateResult.ok v ∨ cr2 = CreateResult.ok v)
  ∧ (∀ k v, mapLookup m k = some v → v ≠ "" →
      mapLookup (createEventRoute req m tok zones pr cr cr2).mappings k = some v ∨
      pr = PatchResult.notFound ∨ ∃ msg, pr = PatchResult.err msg) := by
  constructor
  · intro k v h
    simp only [createEventRoute, createNewEvent] at h
    rcases cr with id | msg <;> rcases cr2 with id2 | msg2 <;>
      (try dsimp only at h) <;> repeat' split at h
    all_goals first
      | exact Or.inl h
      | exact Or.inl (lookup_after_erase _ _ _ _ h)
      | exact Or.inl (lookup_after_erase _ _ _ _ (lookup_after_erase _ _ _ _ h))
      | (rcases lookup_after_set _ _ _ _ _ h with h1 | rfl
         · first
            | exact Or.inl h1
            | exact Or.inl (lookup_after_erase _ _ _ _ h1)
            | exact Or.inl (lookup_after_erase _ _ _ _
                (lookup_after_erase _ _ _ _ h1))
         · first
            | exact Or.inr (Or.inl rfl)
            | exact Or.inr (Or.inr rfl))
  · intro k v h hv
    simp only [createEventRoute, createNewEvent]
    repeat' split
    · exact Or.inl h
    · exact Or.inl h
    · exact Or.inr (Or.inl rfl)
    · exact Or.inr (Or.inl rfl)
    · exact Or.inr (Or.inl rfl)
    · exact Or.inr (Or.inl rfl)
    · exact Or.inl h
    · exact Or.inr (Or.inr ⟨_, rfl⟩)
    · exact Or.inr (Or.inr ⟨_, rfl⟩)
    · exact Or.inr (Or.inr ⟨_, rfl⟩)
    · -- create path, remote create succeeded
      rename_i hnc xx id2 m4 c3 heq
      rcases cr with id | msg
      · injection heq with ha hbc
        injection hbc with hb hc
        subst hb
        rcases her : extractERCode (some (jsOr req.summary "")) with _ | er0
        · simpa [jsTruthy] using Or.inl h
        · by_cases her0 : er0 = ""
          · subst her0
            simpa [jsTruthy] using Or.inl h
          · by_cases hk : k = er0
            · exfalso
              apply hnc er0 v her
              simp only [her]
              subst hk
              simp [jsTruthy, h, hv]
            · have hs := mapLookup_mapSet_ne m er0 id k hk
              simp [jsTruthy, her0, hs, h]
      · injection heq with ha hbc
        injection ha
    · -- create path, remote create failed
      rename_i hnc xx e2 m4 c3 heq
      rcases cr with id | msg
      · injection heq with ha hbc
        injection ha
      · injection heq with ha hbc
        injection hbc with hb hc
        subst hb
        exact Or.inl h
    · exact Or.inl h

/-- Witness for C8's amended theorem at concrete runs: after a successful
recreate, the stored value `gcal_2` is accounted for by the successful
create response; and with a successful update, the pre-existing truthy
entry survives or the patch reported a 404/error. -/
theorem mapping_write_discipline_witness :
    (mapLookup [("ER15", "gcal_1")] "ER15" = some "gcal_2" ∨
      CreateResult.ok "gcal_2" = CreateResult.ok "gcal_2" ∨
      CreateResult.ok "x" = CreateResult.ok "gcal_2") ∧
    (mapLookup (createEventRoute req0 [("ER15", "gcal_1")] true zones0
        PatchResult.ok (CreateResult.ok "z") (CreateResult.ok "x")).mappings
      "ER15" = some "gcal_1" ∨
      PatchResult.ok = PatchResult.notFound ∨
      ∃ msg, PatchResult.ok = PatchResult.err msg) := by
  constructor
  · exact (mapping_write_discipline req0 [("ER15", "gcal_1")] true zones0
      PatchResult.notFound (CreateResult.ok "gcal_2") (CreateResult.ok "x")).1
      "ER15" "gcal_2" (by decide)
  · exact (mapping_write_discipline req0 [("ER15", "gcal_1")] true zones0
      PatchResult.ok (CreateResult.ok "z") (CreateResult.ok "x")).2
      "ER15" "gcal_1" (by decide) (by decide)

end TwoWayGoogle
